import Mathlib

/-!
Verification of the migration-engine reconciliation core of prisma-engines.

The development shallowly embeds, from the Rust sources:

* the history diagnostic `diagnose_migrations_history` and its helper
  `next_applied_migration` (migration-engine/core/src/commands/schema_push.rs);
* the gate `should_apply` and the migrations-folder branch of
  `SchemaPushCommand::execute` (same file);
* the orchestrator `catch_up` (same file), as a pure function from its inputs
  and the results of its external calls to its return value together with the
  trace of connector operations it performs;
* `SqlMigrationConnector::revert_to`
  (migration-engine/connectors/sql-migration-connector/src/lib.rs), as a trace
  of connector operations;
* the MsSql schema-differ flavour: `column_type_change`,
  `type_change_riskyness`, `native_type_change_riskyness` and
  `tables_to_redefine`
  (sql-migration-connector/src/sql_schema_differ/sql_schema_differ_flavour/mssql.rs).

Checksums are SHA-512 digests in the source; the development is parameterized
by an arbitrary hash function `H : String → Bytes` standing for SHA-512 on the
script text, since the properties at stake only compare digests for equality.
-/

namespace PrismaSpec

/-- Byte strings. Checksums are SHA-512 digests (64 bytes) in the source; we
model byte sequences as lists of naturals. -/
abbrev Bytes := List Nat

/-- A row of the applied-migrations table (`ImperativeMigration` in the
migration-connector crate; its fields are listed in the spec data model and
read back in `read_imperative_migrations`). Timestamps are abstract naturals. -/
structure ImperativeMigration where
  name : String
  checksum : Bytes
  script : String
  started_at : Option Nat := none
  finished_at : Option Nat := none
  rolled_back_at : Option Nat := none
  deriving Repr, DecidableEq

/-- Modelled from the spec: `ImperativeMigration::is_applied` is defined in the
migration-connector crate, which is not among the provided sources; only its
caller `next_applied_migration` is. Spec section 3: "An entry is considered
applied iff `rolled_back_at` is null." -/
def ImperativeMigration.is_applied (m : ImperativeMigration) : Bool :=
  m.rolled_back_at.isNone

/-- A migration folder on disk (`MigrationFolder` in
migration-engine/core/src/migrations_folder.rs). The folder is identified by
its directory name (`migration_id`) and `read_migration_script` returns the
contents of its script file, which we carry directly. -/
structure MigrationFolder where
  migration_id : String
  script : String
  deriving Repr, DecidableEq

/-- The result type of the history diagnostic (`HistoryDiagnostic` in
schema_push.rs). The Rust variants borrow slices of the input lists; we carry
the corresponding lists. -/
inductive HistoryDiagnostic where
  | UpToDate
  | DatabaseIsBehind (unapplied_migrations : List MigrationFolder)
  | FilesystemIsBehind (unpersisted_migrations : List ImperativeMigration)
  | HistoriesDiverge (last_applied_filesystem_migration : Nat)
  deriving Repr, DecidableEq

/-- Tag selecting which of the four variants a diagnostic is. -/
def variantTag : HistoryDiagnostic → Fin 4
  | .UpToDate => 0
  | .DatabaseIsBehind _ => 1
  | .FilesystemIsBehind _ => 2
  | .HistoriesDiverge _ => 3

/-- Helper `next_applied_migration` of schema_push.rs: pull items from the
enumerated applied-migrations iterator until one satisfies `is_applied`,
returning it (the index is dropped, as in the source) together with the
remaining iterator. -/
def next_applied_migration :
    List (Nat × ImperativeMigration) → Option (ImperativeMigration × List (Nat × ImperativeMigration))
  | [] => none
  | (_, m) :: rest => if m.is_applied then some (m, rest) else next_applied_migration rest

/-- The `while let` loop of `diagnose_migrations_history`, followed by the
post-loop check. State: the remaining enumerated filesystem iterator, the
remaining enumerated applied iterator, and `last_applied_filesystem_migration`.
The full input slices are carried because the source returns subslices of them
(`FilesystemIsBehind` returns the whole applied slice on a first-position
mismatch, and a drop of it after the loop; `DatabaseIsBehind` returns a drop of
the filesystem slice). In the source the folder checksum is recomputed from the
script with SHA-512 on each iteration; here that is `H fs_migration.script`. -/
def diagnose_loop (H : String → Bytes)
    (filesystem_migrations_slice : List MigrationFolder)
    (applied_migrations_slice : List ImperativeMigration) :
    List (Nat × MigrationFolder) → List (Nat × ImperativeMigration) → Option Nat →
      HistoryDiagnostic
  | [], applied_migrations, _ =>
    match applied_migrations with
    | (idx, _) :: _ => .FilesystemIsBehind (applied_migrations_slice.drop idx)
    | [] => .UpToDate
  | (fs_idx, fs_migration) :: fs_rest, applied_migrations, last =>
    match next_applied_migration applied_migrations with
    | some (applied_migration, rest) =>
      if applied_migration.checksum = H fs_migration.script then
        diagnose_loop H filesystem_migrations_slice applied_migrations_slice fs_rest rest
          (some fs_idx)
      else
        match last with
        | some last_applied_filesystem_migration =>
          .HistoriesDiverge last_applied_filesystem_migration
        | none => .FilesystemIsBehind applied_migrations_slice
    | none => .DatabaseIsBehind (filesystem_migrations_slice.drop fs_idx)

/-- Shallow embedding of `diagnose_migrations_history` (schema_push.rs). The
source returns `io::Result` only because reading a script file can fail; here
scripts are data, so the function is total. -/
def diagnose_migrations_history (H : String → Bytes)
    (filesystem_migrations_slice : List MigrationFolder)
    (applied_migrations_slice : List ImperativeMigration) : HistoryDiagnostic :=
  diagnose_loop H filesystem_migrations_slice applied_migrations_slice
    (List.enumFrom 0 filesystem_migrations_slice)
    (List.enumFrom 0 applied_migrations_slice) none

/-! Concrete fixtures used by witnesses and counterexamples. -/

/-- A concrete stand-in hash function for witnesses. -/
def H0 : String → Bytes := fun s => [s.length]

def folderA : MigrationFolder :=
  { migration_id := "20240101000000_a", script := "CREATE TABLE a (id int);" }

def folderB : MigrationFolder :=
  { migration_id := "20240102000000_b", script := "CREATE TABLE bb (id int);" }

def appliedA : ImperativeMigration :=
  { name := "20240101000000_a", checksum := H0 folderA.script, script := folderA.script,
    started_at := some 1, finished_at := some 2 }

def appliedB : ImperativeMigration :=
  { name := "20240102000000_b", checksum := H0 folderB.script, script := folderB.script,
    started_at := some 3, finished_at := some 4 }

/-- An applied row whose checksum matches no folder script of the fixtures. -/
def appliedStray : ImperativeMigration :=
  { name := "20240103000000_c", checksum := [999], script := "CREATE TABLE c (id int);",
    started_at := some 5, finished_at := some 6 }

/-- A rolled-back row. -/
def rolledBackRow : ImperativeMigration :=
  { name := "20240104000000_d", checksum := [7], script := "CREATE TABLE d (id int);",
    started_at := some 7, finished_at := some 8, rolled_back_at := some 9 }

/-! Connector operations. Stateful connector code (`revert_to`, `catch_up`,
`SchemaPushCommand::execute`) is embedded as pure functions from their inputs
and the results of their external calls to their return values, together with
the trace of connector operations they perform against the live database. -/

/-- One connector operation against the live database. `PersistMigration` is
`persist_imperative_migration_to_table`, `ApplyScript` is
`apply_migration_script`, `ApplyDriftStep` is one `apply_step` call on the
drift migration, `RevertTo` is the connector call `revert_to`, `Initialize` is
`connector.initialize`; `DropDatabase`, `FlavourInit` and
`EnsureMigrationsTable` are the operations `revert_to` itself performs, and
`MarkRolledBack` stands for an update setting `rolledBackAt` on the given
rows (performed by `smart_revert_to` in the source, listed here so that its
absence from a trace is expressible). -/
inductive ConnectorAction where
  | PersistMigration (name : String) (checksum : Bytes) (script : String)
  | ApplyScript (script : String) (checksum : Bytes)
  | ApplyDriftStep (step : Nat)
  | RevertTo (filesystem_migrations : List String)
      (to_be_rolled_back : List ImperativeMigration)
  | Initialize
  | DropDatabase
  | FlavourInit
  | EnsureMigrationsTable
  | MarkRolledBack (to_be_rolled_back : List ImperativeMigration)
  deriving Repr, DecidableEq

/-- Shallow embedding of `SqlMigrationConnector::revert_to`
(sql-migration-connector/src/lib.rs lines 218 to 242) as its operation trace:
drop the database, flavour-initialize it, ensure the imperative-migrations
table, then apply every filesystem migration script in order with its checksum
(`migration_script_checksum`, SHA-512 of the script, here `H`). The second
argument is bound as `_to_be_rolled_back` in the source and never used. -/
def revert_to (H : String → Bytes) (filesystem_migrations : List String)
    (_to_be_rolled_back : List ImperativeMigration) : List ConnectorAction :=
  [.DropDatabase, .FlavourInit, .EnsureMigrationsTable]
    ++ filesystem_migrations.map (fun script => .ApplyScript script (H script))

/-- Does the action mark rows as rolled back? -/
def is_mark_rolled_back : ConnectorAction → Bool
  | .MarkRolledBack _ => true
  | _ => false

/-- Is the action a revert of, or a drop of, the live database? -/
def is_revert_or_drop : ConnectorAction → Bool
  | .RevertTo _ _ => true
  | .DropDatabase => true
  | _ => false

/-- Expansion of a connector-level trace into the operations performed against
the live database: a `RevertTo` call performs the trace of `revert_to`, every
other action stands for itself. -/
def expand_action (H : String → Bytes) : ConnectorAction → List ConnectorAction
  | .RevertTo filesystem_migrations to_be_rolled_back =>
    revert_to H filesystem_migrations to_be_rolled_back
  | a => [a]

/-- The trace of recording and applying one filesystem migration in `catch_up`
(the `DatabaseIsBehind` loop body, also the reapply loop of the diverge
branch): persist the row, then apply the script. -/
def apply_filesystem_migration (H : String → Bytes) (f : MigrationFolder) :
    List ConnectorAction :=
  [.PersistMigration f.migration_id (H f.script) f.script,
   .ApplyScript f.script (H f.script)]

/-- The drift message returned by `catch_up` when not forced. -/
def driftMessage : String :=
  "Detected drift between dev database and migrations history. Bring them back into sync? (this may imply data loss)"

/-- The message returned by the `FilesystemIsBehind` branch when not forced. -/
def folderBehindMessage : String :=
  "The migrations folder is behind the database. The migrations that are not in the folder will be reverted. This will drop all the data in the local database."

/-- The message returned by the `HistoriesDiverge` branch when not forced and
exactly the last migration was edited. -/
def lastEditedMessage : String :=
  "The last migration was edited. It will be reverted and applied again. All data in the local database will be lost."

/-- The generic message returned by the `HistoriesDiverge` branch when not
forced. -/
def divergeMessage (migration_id : String) : String :=
  "The history of the migrations from the migrations table and the migrations folder diverge, after the `"
    ++ migration_id
    ++ "` migration. The database will be returned to a clean history. This will drop all the data in the local database. (TODO: offer to rebase)"

/-- Shallow embedding of `catch_up` (schema_push.rs lines 209 to 364). Inputs:
the parsed migrations folder, the applied rows read from the database, the
`force` flag, and `drift`, standing for the result of `connector.detect_drift`
as the number of steps of the drift migration (`none` when no drift).
Returns `none` where the source panics (the `expect` on
`filesystem_migrations.get` and the slice `applied_migrations[last..]` in the
diverge branch); connector calls are modelled as succeeding. In the non-forced
diverge branch the source computes `applied_migrations.len() - 2` in `usize`
and indexes `applied_migrations[last + 1]` directly; both are safe there
because the diverge diagnostic consumed at least two applied rows, and they
are rendered with truncated subtraction and optional indexing here. -/
def catch_up (H : String → Bytes) (drift : Option Nat)
    (filesystem_migrations : List MigrationFolder)
    (applied_migrations : List ImperativeMigration) (force : Bool) :
    Option ((Option String × Bool) × List ConnectorAction) :=
  let fs_migration_scripts := filesystem_migrations.map (fun f => f.script)
  match diagnose_migrations_history H filesystem_migrations applied_migrations with
  | .UpToDate =>
    match drift with
    | some steps =>
      if force then some ((none, true), (List.range steps).map .ApplyDriftStep)
      else some ((some driftMessage, false), [])
    | none => some ((none, true), [])
  | .DatabaseIsBehind unapplied_migrations =>
    some ((none, true), unapplied_migrations.flatMap (apply_filesystem_migration H))
  | .FilesystemIsBehind unpersisted_migrations =>
    if force then
      some ((none, true),
        [.RevertTo fs_migration_scripts unpersisted_migrations, .Initialize])
    else some ((some folderBehindMessage, false), [])
  | .HistoriesDiverge last_applied_filesystem_migration =>
    match filesystem_migrations[last_applied_filesystem_migration]? with
    | none => none
    | some last_applied_fs_migration =>
      if !force then
        if last_applied_filesystem_migration = applied_migrations.length - 2
            ∧ last_applied_filesystem_migration = filesystem_migrations.length - 2
            ∧ (applied_migrations[last_applied_filesystem_migration + 1]?).map
                  (fun m => m.name)
                = (filesystem_migrations[last_applied_filesystem_migration + 1]?).map
                  (fun f => f.migration_id) then
          some ((some lastEditedMessage, false), [])
        else
          some ((some (divergeMessage last_applied_fs_migration.migration_id), false), [])
      else
        if last_applied_filesystem_migration ≤ applied_migrations.length then
          some ((none, true),
            .RevertTo
                ((filesystem_migrations.take last_applied_filesystem_migration).map
                  (fun f => f.script))
                (applied_migrations.drop last_applied_filesystem_migration)
              :: (filesystem_migrations.drop last_applied_filesystem_migration).flatMap
                  (apply_filesystem_migration H))
        else none

/-- Input of the schema_push command (`SchemaPushInput` in schema_push.rs). -/
structure SchemaPushInput where
  schema : String
  force : Bool
  accept_data_loss : Bool
  draft : Bool
  migrations_folder_path : Option String := none
  deriving Repr, DecidableEq

/-- The destructive change diagnostics consumed by `should_apply` and the
command output (`DestructiveChangeDiagnostics` in the migration-connector
crate): warnings and unexecutable migrations, carried as their description
strings, which is all schema_push.rs reads from them. -/
structure DestructiveChangeDiagnostics where
  warnings : List String
  unexecutable_migrations : List String
  deriving Repr, DecidableEq

/-- Shallow embedding of `should_apply` (schema_push.rs lines 171 to 189). -/
def should_apply (checks : DestructiveChangeDiagnostics)
    (input : SchemaPushInput) : Bool :=
  match checks.unexecutable_migrations.length, checks.warnings.length,
      input.accept_data_loss with
  | Nat.succ _, _, _ => false
  | 0, 0, _ => true
  | 0, _, true => true
  | _, _, _ => false

/-- Output of the schema_push command (`SchemaPushOutput` in schema_push.rs). -/
structure SchemaPushOutput where
  executed_steps : Nat
  warnings : List String
  unexecutable : List String
  radical_measure : Option String
  deriving Repr, DecidableEq

/-- Shallow embedding of the migrations-folder branch of
`SchemaPushCommand::execute` (schema_push.rs lines 38 to 127), as a function of
the results of its external calls: `catch_up_result` for `catch_up`, `checks`
for `checker.check` (the source also computes `pure_check`, used only for
rendering), `migration_is_empty` for `applier.migration_is_empty`, and
`path_exists` for `path.exists()`. `none` models an error return
(`CommandError`). -/
def execute_with_folder (input : SchemaPushInput)
    (catch_up_result : Option String × Bool)
    (checks : DestructiveChangeDiagnostics)
    (migration_is_empty : Bool) (path_exists : Bool) : Option SchemaPushOutput :=
  match catch_up_result with
  | (some radical_measure, _) =>
    some { executed_steps := 0, warnings := [], unexecutable := [],
           radical_measure := some radical_measure }
  | (none, false) =>
    some { executed_steps := 0, warnings := [], unexecutable := [],
           radical_measure := none }
  | (none, true) =>
    if migration_is_empty then
      some { executed_steps := 0, warnings := [], unexecutable := [],
             radical_measure := none }
    else if !(should_apply checks input) then
      some { executed_steps := 0, warnings := [], unexecutable := [],
             radical_measure := none }
    else if !path_exists then none
    else if input.draft then
      some { executed_steps := 0, warnings := [], unexecutable := [],
             radical_measure := none }
    else
      some { executed_steps := 1, warnings := checks.warnings,
             unexecutable := checks.unexecutable_migrations,
             radical_measure := none }

/-! The MsSql schema-differ flavour
(sql_schema_differ/sql_schema_differ_flavour/mssql.rs). -/

/-- Modelled from the spec: the column type families of the schema model (spec
section 3); the `ColumnTypeFamily` enum itself lives in the
sql-schema-describer crate, not under the provided sources. -/
inductive ColumnTypeFamily where
  | Int
  | Float
  | String
  | Boolean
  | DateTime
  | Bytes
  | Decimal
  | Json
  | Uuid
  | Enum (name : String)
  deriving Repr, DecidableEq

/-- Parameter of a variable-size MsSql type (`MsSqlTypeParameter` in the
native-types crate): a number or `Max`. -/
inductive MsSqlTypeParameter where
  | Number (n : Nat)
  | Max
  deriving Repr, DecidableEq

/-- Modelled from the spec: the opaque dialect-specific native type token of
the schema model (spec section 3), instantiated for MsSql with the
constructors the differ flavour matches on; the `MsSqlType` enum itself lives
in the native-types crate, not under the provided sources. -/
inductive MsSqlType where
  | TinyInt
  | SmallInt
  | Int
  | BigInt
  | Decimal (params : Option (Nat × Nat))
  | Numeric (params : Option (Nat × Nat))
  | Money
  | SmallMoney
  | Bit
  | Float (params : Option Nat)
  | Real
  | Date
  | Time
  | DateTime
  | DateTime2
  | DateTimeOffset
  | SmallDateTime
  | Char (params : Option Nat)
  | NChar (params : Option Nat)
  | VarChar (params : Option MsSqlTypeParameter)
  | Text
  | NVarChar (params : Option MsSqlTypeParameter)
  | NText
  | Binary (params : Option Nat)
  | VarBinary (params : Option MsSqlTypeParameter)
  | Image
  | Xml
  | UniqueIdentifier
  deriving Repr, DecidableEq

/-- Classification of a column type change (`ColumnTypeChange` in
sql_schema_differ/column.rs). -/
inductive ColumnTypeChange where
  | SafeCast
  | RiskyCast
  | NotCastable
  deriving Repr, DecidableEq

/-- The data the MsSql differ flavour reads from one column walker: its type
family (`column_type_family`), its optional MsSql native type
(`column_native_type`), and its auto-increment flag (`is_autoincrement`),
mirroring the corresponding fields of the describer `Column`. -/
structure Column where
  family : ColumnTypeFamily
  native_type : Option MsSqlType := none
  auto_increment : Bool := false
  deriving Repr, DecidableEq

/-- A pair of matched columns (`ColumnDiffer` in sql_schema_differ/column.rs):
the column in the previous schema and the column in the next schema. -/
structure ColumnDiffer where
  previous : Column
  next : Column
  deriving Repr, DecidableEq

/-- Modelled from the spec: `ColumnDiffer::autoincrement_changed` lives in
sql_schema_differ/column.rs, not under the provided sources; spec section 4.C:
a column counts as altered when any of family, arity, native type, default or
auto_increment changed, and the redefine rule tests the auto_increment part
per column pair. -/
def ColumnDiffer.autoincrement_changed (differ : ColumnDiffer) : Bool :=
  differ.previous.auto_increment != differ.next.auto_increment

/-- Shallow embedding of `type_change_riskyness` (mssql.rs lines 51 to 59):
the family-level classification table. -/
def type_change_riskyness (differ : ColumnDiffer) : ColumnTypeChange :=
  match differ.previous.family, differ.next.family with
  | _, .String => .SafeCast
  | .String, .Int | .DateTime, .Float | .String, .Float => .NotCastable
  | _, _ => .RiskyCast

/-- Shallow embedding of `SqlSchemaDifferFlavour::column_type_change` for the
MsSql flavour (mssql.rs lines 42 to 48): `None` when the families are equal,
otherwise the family-level table. This function does not call
`native_type_change_riskyness`. -/
def column_type_change (differ : ColumnDiffer) : Option ColumnTypeChange :=
  if differ.previous.family = differ.next.family then none
  else some (type_change_riskyness differ)

/-- Shallow embedding of `native_type_change_riskyness` (mssql.rs lines 61 to
259). The function is defined but never called in the source file. When a
native type is missing on either side it falls back to the family table; when
both sides carry one and they are equal, the cast is safe; otherwise a flat
matrix decides. The source match has no arm for many remaining combinations
(for example Money to TinyInt); those are mapped to `none` here. Arm order is
preserved, so the late catch-all arms targeting Char, NChar, VarChar and
NVarChar apply only to pairs no earlier arm matched. The `p - s` and `n`
guards use truncated natural subtraction where the source uses u32
arithmetic. -/
def native_type_change_riskyness (differ : ColumnDiffer) : Option ColumnTypeChange :=
  match differ.previous.native_type, differ.next.native_type with
  | none, _ | _, none => some (type_change_riskyness differ)
  | some left, some right =>
    if left = right then some .SafeCast
    else
      match left, right with
      | .Bit, .TinyInt => some .SafeCast
      | .Bit, .SmallInt => some .SafeCast
      | .Bit, .Int => some .SafeCast
      | .Bit, .BigInt => some .SafeCast
      | .Bit, .Decimal _ => some .SafeCast
      | .Bit, .Numeric _ => some .SafeCast
      | .Bit, .Money => some .SafeCast
      | .Bit, .SmallMoney => some .SafeCast
      | .Bit, .Float _ => some .SafeCast
      | .Bit, .Real => some .SafeCast
      | .Bit, .DateTime => some .SafeCast
      | .Bit, .SmallDateTime => some .SafeCast
      | .Bit, .Binary _ => some .SafeCast
      | .Bit, .VarBinary _ => some .SafeCast
      | .Bit, .Text => some .NotCastable
      | .Bit, .NText => some .NotCastable
      | .Bit, .Image => some .NotCastable
      | .Bit, .Xml => some .NotCastable
      | .Bit, .UniqueIdentifier => some .NotCastable
      | .Bit, .Date => some .NotCastable
      | .Bit, .Time => some .NotCastable
      | .Bit, .DateTime2 => some .NotCastable
      | .Bit, .DateTimeOffset => some .NotCastable
      | .TinyInt, .SmallInt => some .SafeCast
      | .TinyInt, .Int => some .SafeCast
      | .TinyInt, .BigInt => some .SafeCast
      | .TinyInt, .Decimal _ => some .SafeCast
      | .TinyInt, .Numeric _ => some .SafeCast
      | .TinyInt, .Money => some .SafeCast
      | .TinyInt, .SmallMoney => some .SafeCast
      | .TinyInt, .Float _ => some .SafeCast
      | .TinyInt, .Real => some .SafeCast
      | .TinyInt, .DateTime => some .SafeCast
      | .TinyInt, .SmallDateTime => some .SafeCast
      | .TinyInt, .Binary _ => some .SafeCast
      | .TinyInt, .VarBinary _ => some .SafeCast
      | .TinyInt, .Text => some .NotCastable
      | .TinyInt, .NText => some .NotCastable
      | .TinyInt, .Image => some .NotCastable
      | .TinyInt, .Xml => some .NotCastable
      | .TinyInt, .UniqueIdentifier => some .NotCastable
      | .TinyInt, .Date => some .NotCastable
      | .TinyInt, .Time => some .NotCastable
      | .TinyInt, .DateTime2 => some .NotCastable
      | .TinyInt, .DateTimeOffset => some .NotCastable
      | .SmallInt, .Int => some .SafeCast
      | .SmallInt, .BigInt => some .SafeCast
      | .SmallInt, .Decimal params =>
        match params with
        | some (p, s) => if p - s < 5 then some .RiskyCast else some .SafeCast
        | none => some .SafeCast
      | .SmallInt, .Numeric params =>
        match params with
        | some (p, s) => if p - s < 5 then some .RiskyCast else some .SafeCast
        | none => some .SafeCast
      | .SmallInt, .Money => some .SafeCast
      | .SmallInt, .SmallMoney => some .SafeCast
      | .SmallInt, .Float _ => some .SafeCast
      | .SmallInt, .Real => some .SafeCast
      | .SmallInt, .DateTime => some .SafeCast
      | .SmallInt, .SmallDateTime => some .RiskyCast
      | .SmallInt, .Binary param =>
        match param with
        | some n => if n < 2 then some .RiskyCast else some .SafeCast
        | none => some .RiskyCast
      | .SmallInt, .VarBinary param =>
        match param with
        | some (.Number n) => if n < 2 then some .RiskyCast else some .SafeCast
        | none => some .RiskyCast
        | some .Max => some .SafeCast
      | .SmallInt, .Text => some .NotCastable
      | .SmallInt, .NText => some .NotCastable
      | .SmallInt, .Image => some .NotCastable
      | .SmallInt, .Xml => some .NotCastable
      | .SmallInt, .UniqueIdentifier => some .NotCastable
      | .SmallInt, .Date => some .NotCastable
      | .SmallInt, .Time => some .NotCastable
      | .SmallInt, .DateTime2 => some .NotCastable
      | .SmallInt, .DateTimeOffset => some .NotCastable
      | .Int, .BigInt => some .SafeCast
      | .Int, .Decimal params =>
        match params with
        | some (p, s) => if p - s < 10 then some .RiskyCast else some .SafeCast
        | none => some .SafeCast
      | .Int, .Numeric params =>
        match params with
        | some (p, s) => if p - s < 10 then some .RiskyCast else some .SafeCast
        | none => some .SafeCast
      | .Int, .Money => some .SafeCast
      | .Int, .SmallMoney => some .SafeCast
      | .Int, .Float _ => some .SafeCast
      | .Int, .Real => some .SafeCast
      | .Int, .DateTime => some .SafeCast
      | .Int, .SmallDateTime => some .RiskyCast
      | .Int, .Binary param =>
        match param with
        | some n => if n < 4 then some .RiskyCast else some .SafeCast
        | none => some .RiskyCast
      | .Int, .VarBinary param =>
        match param with
        | some (.Number n) => if n < 4 then some .RiskyCast else some .SafeCast
        | none => some .RiskyCast
        | some .Max => some .SafeCast
      | .Int, .Text => some .NotCastable
      | .Int, .NText => some .NotCastable
      | .Int, .Image => some .NotCastable
      | .Int, .Xml => some .NotCastable
      | .Int, .UniqueIdentifier => some .NotCastable
      | .Int, .Date => some .NotCastable
      | .Int, .Time => some .NotCastable
      | .Int, .DateTime2 => some .NotCastable
      | .Int, .DateTimeOffset => some .NotCastable
      | .BigInt, .Decimal params =>
        match params with
        | some (p, s) => if p - s < 19 then some .RiskyCast else some .SafeCast
        | none => some .RiskyCast
      | .BigInt, .Numeric params =>
        match params with
        | some (p, s) => if p - s < 19 then some .RiskyCast else some .SafeCast
        | none => some .RiskyCast
      | .BigInt, .Money => some .RiskyCast
      | .BigInt, .SmallMoney => some .RiskyCast
      | .BigInt, .Float _ => some .RiskyCast
      | .BigInt, .Real => some .RiskyCast
      | .BigInt, .DateTime => some .RiskyCast
      | .BigInt, .SmallDateTime => some .RiskyCast
      | .BigInt, .Binary param =>
        match param with
        | some n => if n < 8 then some .RiskyCast else some .SafeCast
        | none => some .RiskyCast
      | .BigInt, .VarBinary param =>
        match param with
        | some (.Number n) => if n < 8 then some .RiskyCast else some .SafeCast
        | none => some .RiskyCast
        | some .Max => some .SafeCast
      | .BigInt, .Text => some .NotCastable
      | .BigInt, .NText => some .NotCastable
      | .BigInt, .Image => some .NotCastable
      | .BigInt, .Xml => some .NotCastable
      | .BigInt, .UniqueIdentifier => some .NotCastable
      | .BigInt, .Date => some .NotCastable
      | .BigInt, .Time => some .NotCastable
      | .BigInt, .DateTime2 => some .NotCastable
      | .BigInt, .DateTimeOffset => some .NotCastable
      | .Decimal _, .TinyInt => some .RiskyCast
      | .Decimal _, .SmallInt => some .RiskyCast
      | .Decimal _, .Int => some .RiskyCast
      | .Decimal _, .BigInt => some .RiskyCast
      | .Decimal _, .Numeric _ => some .SafeCast
      | .Decimal _, .Money => some .RiskyCast
      | .Decimal _, .SmallMoney => some .RiskyCast
      | .Decimal _, .Bit => some .RiskyCast
      | .Decimal _, .Float _ => some .RiskyCast
      | .Decimal _, .Real => some .RiskyCast
      | .Decimal _, .Date => some .NotCastable
      | .Decimal _, .Time => some .NotCastable
      | .Decimal _, .DateTime => some .RiskyCast
      | .Decimal _, .SmallDateTime => some .RiskyCast
      | .Decimal _, .Text => some .NotCastable
      | .Decimal _, .NText => some .NotCastable
      | .Decimal _, .Image => some .NotCastable
      | .Decimal _, .Xml => some .NotCastable
      | .Decimal _, .UniqueIdentifier => some .NotCastable
      | .Decimal _, .Binary _ => some .RiskyCast
      | .Decimal _, .VarBinary _ => some .RiskyCast
      | .Text, .VarChar (some .Max) => some .SafeCast
      | .Text, .NVarChar (some .Max) => some .SafeCast
      | .NText, .NVarChar (some .Max) => some .SafeCast
      | .NText, .VarChar (some .Max) => some .RiskyCast
      | _, .Char _ => some .SafeCast
      | _, .NChar _ => some .SafeCast
      | _, .VarChar _ => some .SafeCast
      | _, .NVarChar _ => some .SafeCast
      | _, _ => none

/-- A pair of tables matched by the differ (`TableDiffer` in the
sql_schema_differ module). `tables_to_redefine` reads `table.next().name()` in
the autoincrement rule and `tables.previous().name()` in the not-castable
rule, so both names are kept along with the matched column pairs. -/
structure TableDiffer where
  previous_name : String
  next_name : String
  column_pairs : List ColumnDiffer
  deriving Repr, DecidableEq

/-- Modelled from the spec: the differ state consumed by `tables_to_redefine`,
reduced to its table pairs; `SqlSchemaDiffer::table_pairs` is not under the
provided sources, and spec section 4.C pairs tables present in both schemas by
name. -/
structure SqlSchemaDiffer where
  table_pairs : List TableDiffer
  deriving Repr, DecidableEq

/-- Shallow embedding of `SqlSchemaDifferFlavour::tables_to_redefine` for the
MsSql flavour (mssql.rs lines 19 to 40). The source chains two filtered
iterators and collects into a `HashSet<String>`; the chained list is kept
here, and set membership is list membership. -/
def tables_to_redefine (differ : SqlSchemaDiffer) : List String :=
  let autoincrement_changed :=
    (differ.table_pairs.filter
      (fun t => t.column_pairs.any (fun c => c.autoincrement_changed))).map
      (fun t => t.next_name)
  let all_columns_of_the_table_gets_dropped :=
    (differ.table_pairs.filter
      (fun t => t.column_pairs.all (fun c =>
        (c.previous.family != c.next.family)
          && (type_change_riskyness c == ColumnTypeChange.NotCastable)))).map
      (fun t => t.previous_name)
  autoincrement_changed ++ all_columns_of_the_table_gets_dropped

/-- The family-level classification table as the spec words it, written
independently of the source to compare against `type_change_riskyness`:
anything to String is safe; String to Int, DateTime to Float and String to
Float are not castable; any other family change is risky. -/
def spec_family_classification (previous next : ColumnTypeFamily) : ColumnTypeChange :=
  if next = .String then .SafeCast
  else if (previous = .String ∧ next = .Int) ∨ (previous = .DateTime ∧ next = .Float)
      ∨ (previous = .String ∧ next = .Float) then .NotCastable
  else .RiskyCast

/-! Further concrete fixtures for witnesses and counterexamples. -/

/-- A command input with no flags set. -/
def inputPlain : SchemaPushInput :=
  { schema := "model A", force := false, accept_data_loss := false, draft := false }

/-- Diagnostics carrying one warning and one unexecutable migration. -/
def checksWithUnexec : DestructiveChangeDiagnostics :=
  { warnings := ["warning w"], unexecutable_migrations := ["unexecutable u"] }

/-- A column pair going from native Bit (family Boolean) to native TinyInt
(family Int): the native matrix calls this a safe cast, the family table a
risky one. -/
def cBitToTinyInt : ColumnDiffer :=
  { previous := { family := .Boolean, native_type := some .Bit },
    next := { family := .Int, native_type := some .TinyInt } }

/-- A column pair whose auto_increment flag flips. -/
def cAutoFlip : ColumnDiffer :=
  { previous := { family := .Int },
    next := { family := .Int, auto_increment := true } }

/-- A table pair with one column pair whose auto_increment flag flips. -/
def tableAuto : TableDiffer :=
  { previous_name := "users", next_name := "users", column_pairs := [cAutoFlip] }

/-- A differ holding the single table pair `tableAuto`. -/
def differAuto : SqlSchemaDiffer := { table_pairs := [tableAuto] }

example : diagnose_migrations_history H0 [folderA] [appliedA] = .UpToDate := by decide

example : diagnose_migrations_history H0 [folderA, folderB] [appliedA]
    = .DatabaseIsBehind [folderB] := by decide

example : diagnose_migrations_history H0 [] [rolledBackRow]
    = .FilesystemIsBehind [rolledBackRow] := by decide

example : diagnose_migrations_history H0 [folderA, folderB] [appliedA, appliedStray]
    = .HistoriesDiverge 0 := by decide

example : diagnose_migrations_history H0 [folderA] [appliedStray]
    = .FilesystemIsBehind [appliedStray] := by decide

/-! The central loop lemma: while corresponding filesystem and applied entries
match pairwise (the applied row not rolled back and its checksum equal to the
folder checksum), the loop consumes both and records the folder index of the
last match. -/

/-- Pairwise-match hypothesis packaged as one equation per index: position `k`
of the applied list is a row that is applied and whose checksum is the hash of
position `k` of the folder list; in particular both lists have equal length. -/
abbrev matchesPairwise (H : String → Bytes)
    (fsM : List MigrationFolder) (apM : List ImperativeMigration) : Prop :=
  ∀ k : Nat, (apM[k]?).map (fun m => (m.is_applied, m.checksum))
      = (fsM[k]?).map (fun f => (true, H f.script))

theorem diagnose_loop_consume (H : String → Bytes)
    (fsS : List MigrationFolder) (apS : List ImperativeMigration)
    (fsM : List MigrationFolder) (apM : List ImperativeMigration)
    (i j : Nat) (fsRest : List (Nat × MigrationFolder))
    (apRest : List (Nat × ImperativeMigration)) (last : Option Nat)
    (hmatch : matchesPairwise H fsM apM) :
    diagnose_loop H fsS apS (List.enumFrom i fsM ++ fsRest)
        (List.enumFrom j apM ++ apRest) last
      = diagnose_loop H fsS apS fsRest apRest
          (if fsM.length = 0 then last else some (i + fsM.length - 1)) := by
  induction fsM generalizing apM i j last with
  | nil =>
    cases apM with
    | nil => simp [List.enumFrom]
    | cons a apM =>
      have h := hmatch 0
      simp at h
  | cons f fsM ih =>
    cases apM with
    | nil =>
      have h := hmatch 0
      simp at h
    | cons a apM =>
      have h0 := hmatch 0
      simp at h0
      have htail : matchesPairwise H fsM apM := fun k => by
        have := hmatch (k + 1)
        simpa using this
      rw [List.enumFrom_cons, List.enumFrom_cons, List.cons_append, List.cons_append]
      rw [show diagnose_loop H fsS apS
            ((i, f) :: (List.enumFrom (i + 1) fsM ++ fsRest))
            ((j, a) :: (List.enumFrom (j + 1) apM ++ apRest)) last
          = diagnose_loop H fsS apS (List.enumFrom (i + 1) fsM ++ fsRest)
              (List.enumFrom (j + 1) apM ++ apRest) (some i) by
        simp [diagnose_loop, next_applied_migration, h0.1, h0.2]]
      rw [ih apM (i + 1) (j + 1) (some i) htail]
      congr 1
      cases hlen : fsM.length with
      | zero => simp [hlen]
      | succ n => simp [hlen]; omega

/-- Lists of equal length, with no rolled-back row on the applied side and
pairwise-matching checksums, match pairwise. -/
theorem matchesPairwise_of (H : String → Bytes)
    (fs : List MigrationFolder) (ap : List ImperativeMigration)
    (hlen : fs.length = ap.length)
    (hroll : ∀ m ∈ ap, m.rolled_back_at = none)
    (hsum : ∀ k : Nat,
      (ap[k]?).map (fun m => m.checksum) = (fs[k]?).map (fun f => H f.script)) :
    matchesPairwise H fs ap := by
  intro k
  have hk := hsum k
  cases hak : ap[k]? with
  | none =>
    have hfk : fs[k]? = none := by
      refine List.getElem?_eq_none ?_
      rw [hlen]
      exact List.getElem?_eq_none_iff.mp hak
    simp [hak, hfk]
  | some m =>
    have happ : m.is_applied = true := by
      simp [ImperativeMigration.is_applied, hroll m (List.getElem?_mem hak)]
    cases hfk : fs[k]? with
    | none => rw [hak, hfk] at hk; simp at hk
    | some f =>
      rw [hak, hfk] at hk
      simp at hk
      simp [hak, hfk, happ, hk]

/-- Claim C1: `diagnose_migrations_history` always returns exactly one of the
four variants, and on inputs of equal length where every applied row has
`rolled_back_at` null and checksums match pairwise in order, it returns
`UpToDate`. -/
theorem history_diagnostic_totality_and_up_to_date :
    (∀ (H : String → Bytes) (fs : List MigrationFolder) (ap : List ImperativeMigration),
      ∃! t : Fin 4, variantTag (diagnose_migrations_history H fs ap) = t) ∧
    (∀ (H : String → Bytes) (fs : List MigrationFolder) (ap : List ImperativeMigration),
      fs.length = ap.length →
      (∀ m ∈ ap, m.rolled_back_at = none) →
      (∀ k : Nat, (ap[k]?).map (fun m => m.checksum) = (fs[k]?).map (fun f => H f.script)) →
      diagnose_migrations_history H fs ap = .UpToDate) := by
  constructor
  · intro H fs ap
    exact ⟨variantTag (diagnose_migrations_history H fs ap), rfl, fun t ht => ht.symm⟩
  · intro H fs ap hlen hroll hsum
    have hm : matchesPairwise H fs ap := matchesPairwise_of H fs ap hlen hroll hsum
    have hcons := diagnose_loop_consume H fs ap fs ap 0 0 [] [] none hm
    rw [List.append_nil, List.append_nil] at hcons
    rw [diagnose_migrations_history, hcons]
    cases h : (if fs.length = 0 then (none : Option Nat) else some (0 + fs.length - 1)) <;>
      rfl

/-- Witness for C1: the second part applied at a concrete one-entry history. -/
theorem history_diagnostic_up_to_date_witness :
    ([folderA].length = [appliedA].length) ∧
    diagnose_migrations_history H0 [folderA] [appliedA] = .UpToDate :=
  ⟨rfl,
   history_diagnostic_totality_and_up_to_date.2 H0 [folderA] [appliedA] rfl
     (by decide) (fun k => by cases k <;> rfl)⟩

/-- Claim C2, counterexample: with an empty folder list and a single rolled-back
applied row, every folder entry has trivially matched and no non-rolled-back
row remains, yet the function returns `FilesystemIsBehind`, not `UpToDate`: the
post-loop check takes the next enumerated row without filtering rolled-back
ones. -/
theorem trailing_rolled_back_row_counterexample :
    diagnose_migrations_history H0 [] [rolledBackRow]
        = .FilesystemIsBehind [rolledBackRow] ∧
      diagnose_migrations_history H0 [] [rolledBackRow] ≠ .UpToDate := by
  constructor
  · decide
  · decide

/-- Claim C2, amended: during matching, `next_applied_migration` skips rows
whose `rolled_back_at` is non-null; but the post-loop check does not filter:
after every folder entry matched in order, any remaining rows — in particular
trailing rows that are all rolled back — yield `FilesystemIsBehind` with those
rows as `unpersisted_migrations`, not `UpToDate`. -/
theorem next_applied_skips_rolled_back_and_trailing_rows_yield_filesystem_is_behind :
    (∀ (i : Nat) (m : ImperativeMigration) (rest : List (Nat × ImperativeMigration)),
      m.is_applied = false →
      next_applied_migration ((i, m) :: rest) = next_applied_migration rest) ∧
    (∀ (H : String → Bytes) (fsM : List MigrationFolder)
      (apM trailing : List ImperativeMigration),
      matchesPairwise H fsM apM →
      trailing ≠ [] →
      (∀ m ∈ trailing, m.is_applied = false) →
      diagnose_migrations_history H fsM (apM ++ trailing)
        = .FilesystemIsBehind trailing) := by
  constructor
  · intro i m rest h
    simp [next_applied_migration, h]
  · intro H fsM apM trailing hm hne _htrail
    have hcons := diagnose_loop_consume H fsM (apM ++ trailing) fsM apM 0 0 []
      (List.enumFrom (0 + apM.length) trailing) none hm
    rw [List.append_nil, ← List.enumFrom_append] at hcons
    rw [diagnose_migrations_history, hcons]
    cases trailing with
    | nil => exact absurd rfl hne
    | cons t ts =>
      rw [List.enumFrom_cons]
      simp [diagnose_loop, List.drop_left]

/-- Witness for the amended C2: a rolled-back row is skipped by the helper, and
a matched history followed by a trailing rolled-back row is diagnosed
`FilesystemIsBehind`. -/
theorem trailing_rolled_back_witness :
    rolledBackRow.is_applied = false ∧
    next_applied_migration [((0 : Nat), rolledBackRow)] = next_applied_migration [] ∧
    diagnose_migrations_history H0 [folderA] ([appliedA] ++ [rolledBackRow])
      = .FilesystemIsBehind [rolledBackRow] :=
  ⟨by decide,
   next_applied_skips_rolled_back_and_trailing_rows_yield_filesystem_is_behind.1
     0 rolledBackRow [] (by decide),
   next_applied_skips_rolled_back_and_trailing_rows_yield_filesystem_is_behind.2
     H0 [folderA] [appliedA] [rolledBackRow]
     (fun k => by cases k <;> rfl) (by decide) (by decide)⟩

/-- Claim C3: on the first checksum mismatch between the current folder entry
and the current (non-rolled-back) applied row, the diagnostic is
`HistoriesDiverge` with the index of the last matched folder entry when at
least one earlier pair matched, and `FilesystemIsBehind` with the whole applied
list when none did. -/
theorem mismatch_diverge_or_filesystem_is_behind :
    ∀ (H : String → Bytes) (fsM : List MigrationFolder) (f : MigrationFolder)
      (fsRest : List MigrationFolder) (apM : List ImperativeMigration)
      (a : ImperativeMigration) (apRest : List ImperativeMigration),
      matchesPairwise H fsM apM →
      a.is_applied = true →
      a.checksum ≠ H f.script →
      diagnose_migrations_history H (fsM ++ f :: fsRest) (apM ++ a :: apRest)
        = if fsM.length = 0
          then .FilesystemIsBehind (apM ++ a :: apRest)
          else .HistoriesDiverge (fsM.length - 1) := by
  intro H fsM f fsRest apM a apRest hm ha hsum
  have hcons := diagnose_loop_consume H (fsM ++ f :: fsRest) (apM ++ a :: apRest) fsM apM 0 0
    (List.enumFrom (0 + fsM.length) (f :: fsRest))
    (List.enumFrom (0 + apM.length) (a :: apRest)) none hm
  rw [← List.enumFrom_append, ← List.enumFrom_append] at hcons
  rw [diagnose_migrations_history, hcons]
  rw [List.enumFrom_cons, List.enumFrom_cons]
  by_cases hl : fsM.length = 0
  · simp [hl, diagnose_loop, next_applied_migration, ha, hsum]
  · simp [hl, diagnose_loop, next_applied_migration, ha, hsum]

/-- Witness for C3: one matched pair then a mismatching applied row gives
`HistoriesDiverge 0`; a mismatch at the very first position gives
`FilesystemIsBehind` with the whole applied list. -/
theorem mismatch_diverge_witness :
    appliedStray.is_applied = true ∧
    appliedStray.checksum ≠ H0 folderB.script ∧
    diagnose_migrations_history H0 ([folderA] ++ folderB :: []) ([appliedA] ++ appliedStray :: [])
      = if ([folderA] : List MigrationFolder).length = 0
        then .FilesystemIsBehind ([appliedA] ++ appliedStray :: [])
        else .HistoriesDiverge (([folderA] : List MigrationFolder).length - 1) :=
  ⟨by decide, by decide,
   mismatch_diverge_or_filesystem_is_behind H0 [folderA] folderB [] [appliedA] appliedStray []
     (fun k => by cases k <;> rfl) (by decide) (by decide)⟩

/-- Claim C4: when every applied row has `rolled_back_at` null and the applied
list is a strict checksum-prefix of the folder list, the diagnostic is
`DatabaseIsBehind` and `unapplied_migrations` is exactly the folder list from
position `applied.length` on. -/
theorem database_is_behind_on_strict_checksum_initial_segment :
    ∀ (H : String → Bytes) (fsM fsRest : List MigrationFolder)
      (ap : List ImperativeMigration),
      fsRest ≠ [] →
      fsM.length = ap.length →
      (∀ m ∈ ap, m.rolled_back_at = none) →
      (∀ k : Nat,
        (ap[k]?).map (fun m => m.checksum) = (fsM[k]?).map (fun f => H f.script)) →
      diagnose_migrations_history H (fsM ++ fsRest) ap
        = .DatabaseIsBehind ((fsM ++ fsRest).drop ap.length) := by
  intro H fsM fsRest ap hne hlen hroll hsum
  have hm : matchesPairwise H fsM ap := matchesPairwise_of H fsM ap hlen hroll hsum
  have hcons := diagnose_loop_consume H (fsM ++ fsRest) ap fsM ap 0 0
    (List.enumFrom (0 + fsM.length) fsRest) [] none hm
  rw [← List.enumFrom_append, List.append_nil] at hcons
  rw [diagnose_migrations_history, hcons]
  cases fsRest with
  | nil => exact absurd rfl hne
  | cons f rest =>
    rw [List.enumFrom_cons]
    simp [diagnose_loop, next_applied_migration, hlen]

/-- Witness for C4: one matched pair and one extra folder entry give
`DatabaseIsBehind` with the second folder entry as unapplied. -/
theorem database_is_behind_witness :
    (([folderB] : List MigrationFolder) ≠ []) ∧
    ([folderA].length = [appliedA].length) ∧
    diagnose_migrations_history H0 ([folderA] ++ [folderB]) [appliedA]
      = .DatabaseIsBehind (([folderA] ++ [folderB]).drop [appliedA].length) :=
  ⟨by decide, rfl,
   database_is_behind_on_strict_checksum_initial_segment H0 [folderA] [folderB] [appliedA]
     (by decide) rfl (by decide) (fun k => by cases k <;> rfl)⟩

/-- Claim C5, counterexample: `revert_to`, invoked with a non-empty
`to_be_rolled_back` list, performs the drop, the two initialization steps and
the replay, but no marking-as-rolled-back operation at all: the argument is
unused in the source. -/
theorem revert_to_no_marking_counterexample :
    revert_to H0 ["sql"] [rolledBackRow]
        = [.DropDatabase, .FlavourInit, .EnsureMigrationsTable,
           .ApplyScript "sql" [3]] ∧
      (revert_to H0 ["sql"] [rolledBackRow]).filter is_mark_rolled_back = [] := by
  constructor
  · decide
  · decide

/-- Claim C5, amended: `revert_to` drops the main database, reinitializes it
(flavour init plus the imperative-migrations table) and re-applies the given
filesystem scripts in order via the applier; it performs no
marking-as-rolled-back, its `to_be_rolled_back` argument being unused (the
rows are destroyed together with the dropped database). -/
theorem revert_to_drops_reinits_replays_without_marking :
    ∀ (H : String → Bytes) (filesystem_migrations : List String)
      (to_be_rolled_back : List ImperativeMigration),
      (revert_to H filesystem_migrations to_be_rolled_back).take 3
          = [.DropDatabase, .FlavourInit, .EnsureMigrationsTable] ∧
      (revert_to H filesystem_migrations to_be_rolled_back).drop 3
          = filesystem_migrations.map (fun script => .ApplyScript script (H script)) ∧
      (revert_to H filesystem_migrations to_be_rolled_back).filter is_mark_rolled_back
          = [] := by
  intro H filesystem_migrations to_be_rolled_back
  refine ⟨rfl, ?_, ?_⟩
  · simp [revert_to]
  · induction filesystem_migrations with
    | nil => rfl
    | cons s rest ih =>
      simp [revert_to, is_mark_rolled_back] at ih ⊢

/-- Any trace made only of persist and apply operations for filesystem
migrations contains no revert or drop, before and after expansion. -/
theorem apply_filesystem_migrations_no_revert (H : String → Bytes)
    (l : List MigrationFolder) :
    (l.flatMap (apply_filesystem_migration H)).any is_revert_or_drop = false ∧
    ((l.flatMap (apply_filesystem_migration H)).flatMap (expand_action H)).any
        is_revert_or_drop = false := by
  induction l with
  | nil => constructor <;> rfl
  | cons f rest ih =>
    constructor <;>
      simp [apply_filesystem_migration, expand_action, is_revert_or_drop, ih.1, ih.2]

/-- Claim C6: with `force = false`, no branch of `catch_up` performs a revert
or a drop against the live database: its trace contains no `RevertTo` call,
and its expansion into the operations `revert_to` performs contains no
database drop either. -/
theorem catch_up_without_force_never_reverts_or_drops :
    ∀ (H : String → Bytes) (drift : Option Nat)
      (filesystem_migrations : List MigrationFolder)
      (applied_migrations : List ImperativeMigration)
      (result : (Option String × Bool) × List ConnectorAction),
      catch_up H drift filesystem_migrations applied_migrations false = some result →
      result.2.any is_revert_or_drop = false ∧
      (result.2.flatMap (expand_action H)).any is_revert_or_drop = false := by
  intro H drift fs ap result h
  unfold catch_up at h
  cases hd : diagnose_migrations_history H fs ap with
  | UpToDate =>
    rw [hd] at h
    cases drift with
    | some steps =>
      simp at h
      rw [← h]
      constructor <;> rfl
    | none =>
      simp at h
      rw [← h]
      constructor <;> rfl
  | DatabaseIsBehind unapplied_migrations =>
    rw [hd] at h
    simp at h
    rw [← h]
    exact apply_filesystem_migrations_no_revert H unapplied_migrations
  | FilesystemIsBehind unpersisted_migrations =>
    rw [hd] at h
    simp at h
    rw [← h]
    constructor <;> rfl
  | HistoriesDiverge last =>
    rw [hd] at h
    cases hfs : fs[last]? with
    | none => simp [hfs] at h
    | some lastFs =>
      simp [hfs] at h
      split at h <;> (simp at h; rw [← h]; constructor <;> rfl)

/-- Witness for C6: the up-to-date, no-drift branch at a concrete input. -/
theorem catch_up_without_force_witness :
    catch_up H0 none [] [] false = some ((none, true), []) ∧
    (([] : List ConnectorAction).any is_revert_or_drop = false ∧
      (([] : List ConnectorAction).flatMap (expand_action H0)).any is_revert_or_drop
        = false) :=
  ⟨by decide,
   catch_up_without_force_never_reverts_or_drops H0 none [] [] ((none, true), [])
     (by decide)⟩

/-- Claim C7: `should_apply` is false whenever an unexecutable migration is
present, whatever `accept_data_loss` is; with no unexecutable migration it is
true exactly when there is no warning or `accept_data_loss` is set. -/
theorem should_apply_blocks_unexecutable_and_gates_warnings :
    ∀ (checks : DestructiveChangeDiagnostics) (input : SchemaPushInput),
      (checks.unexecutable_migrations ≠ [] → should_apply checks input = false) ∧
      (checks.unexecutable_migrations = [] →
        (should_apply checks input = true ↔
          (checks.warnings = [] ∨ input.accept_data_loss = true))) := by
  intro checks input
  obtain ⟨w, u⟩ := checks
  constructor
  · intro hu
    cases u with
    | nil => exact absurd rfl hu
    | cons a t => rfl
  · intro hu
    simp only at hu
    subst hu
    cases w with
    | nil => simp [should_apply]
    | cons b bw =>
      cases hacc : input.accept_data_loss with
      | true => simp [should_apply, hacc]
      | false => simp [should_apply, hacc]

/-- Witness for C7: a present unexecutable migration forces false even though
nothing else blocks. -/
theorem should_apply_witness :
    checksWithUnexec.unexecutable_migrations ≠ [] ∧
    should_apply checksWithUnexec inputPlain = false :=
  ⟨by decide,
   (should_apply_blocks_unexecutable_and_gates_warnings checksWithUnexec inputPlain).1
     (by decide)⟩

/-- Claim C8, counterexample: on a Bit-to-TinyInt column pair where both sides
carry a native type, the flavour classifies by the family table (RiskyCast)
and not by the native-type matrix (SafeCast): `column_type_change` never
consults `native_type_change_riskyness`. -/
theorem mssql_native_matrix_not_consulted_counterexample :
    column_type_change cBitToTinyInt = some .RiskyCast ∧
    native_type_change_riskyness cBitToTinyInt = some .SafeCast ∧
    (some ColumnTypeChange.RiskyCast ≠ some ColumnTypeChange.SafeCast) := by
  refine ⟨rfl, rfl, by decide⟩

/-- Claim C8, amended: for the MsSql dialect, `column_type_change` classifies
every family change with the family-level table, whether or not native types
are attached on either side; the native-type matrix exists in the source but
is never consulted by it. -/
theorem mssql_column_type_change_is_family_based :
    ∀ (differ : ColumnDiffer),
      column_type_change differ
        = if differ.previous.family = differ.next.family then none
          else some (spec_family_classification differ.previous.family
            differ.next.family) := by
  intro differ
  have hfam : type_change_riskyness differ
      = spec_family_classification differ.previous.family differ.next.family := by
    obtain ⟨⟨pf, pn, pa⟩, ⟨nf, nn, na⟩⟩ := differ
    cases pf <;> cases nf <;>
      simp [type_change_riskyness, spec_family_classification]
  rw [column_type_change, hfam]

/-- Claim C9: for the MsSql dialect, with tables paired by name, a name is in
`tables_to_redefine` exactly when its table pair has a column pair with
`autoincrement_changed`, or every one of its column pairs changes family and
is classified `NotCastable` by the family table. -/
theorem mssql_tables_to_redefine_membership :
    ∀ (differ : SqlSchemaDiffer) (n : String),
      (∀ t ∈ differ.table_pairs, t.previous_name = t.next_name) →
      (n ∈ tables_to_redefine differ ↔
        ∃ t ∈ differ.table_pairs, t.previous_name = n ∧
          ((∃ c ∈ t.column_pairs, c.autoincrement_changed = true) ∨
           (∀ c ∈ t.column_pairs, c.previous.family ≠ c.next.family ∧
              type_change_riskyness c = .NotCastable))) := by
  intro differ n hnames
  simp only [tables_to_redefine, List.mem_append, List.mem_map, List.mem_filter,
    List.any_eq_true, List.all_eq_true, Bool.and_eq_true, bne_iff_ne, beq_iff_eq]
  constructor
  · rintro (⟨t, ⟨ht, hany⟩, hname⟩ | ⟨t, ⟨ht, hall⟩, hname⟩)
    · exact ⟨t, ht, (hnames t ht).trans hname, Or.inl hany⟩
    · exact ⟨t, ht, hname, Or.inr hall⟩
  · rintro ⟨t, ht, hname, hor | hor⟩
    · exact Or.inl ⟨t, ⟨ht, hor⟩, (hnames t ht).symm.trans hname⟩
    · exact Or.inr ⟨t, ⟨ht, hor⟩, hname⟩

/-- Witness for C9: a table pair with one auto-increment flip is redefined. -/
theorem mssql_tables_to_redefine_witness :
    "users" ∈ tables_to_redefine differAuto :=
  (mssql_tables_to_redefine_membership differAuto "users" (by decide)).mpr
    ⟨tableAuto, by decide, rfl, Or.inl ⟨cAutoFlip, by decide, by decide⟩⟩

/-- Claim C10: when `catch_up` returns a radical measure, `execute` returns
zero executed steps, empty warnings and unexecutable lists, and that message;
and in every path of the command, a non-null radical measure comes with those
three fields empty, so destructive-change warnings are never reported
alongside a radical measure. -/
theorem radical_measure_short_circuits_output :
    ∀ (input : SchemaPushInput) (catch_up_result : Option String × Bool)
      (checks : DestructiveChangeDiagnostics) (migration_is_empty path_exists : Bool),
      (∀ msg, catch_up_result.1 = some msg →
        execute_with_folder input catch_up_result checks migration_is_empty path_exists
          = some { executed_steps := 0, warnings := [], unexecutable := [],
                   radical_measure := some msg }) ∧
      (∀ out,
        execute_with_folder input catch_up_result checks migration_is_empty path_exists
            = some out →
        out.radical_measure ≠ none →
        out.executed_steps = 0 ∧ out.warnings = [] ∧ out.unexecutable = []) := by
  intro input catch_up_result checks migration_is_empty path_exists
  obtain ⟨o, b⟩ := catch_up_result
  constructor
  · intro msg hmsg
    cases o with
    | none => simp at hmsg
    | some m =>
      simp at hmsg
      subst hmsg
      rfl
  · intro out hout hrad
    cases o with
    | some m =>
      simp [execute_with_folder] at hout
      rw [← hout]
      exact ⟨rfl, rfl, rfl⟩
    | none =>
      cases b with
      | false =>
        simp [execute_with_folder] at hout
        rw [← hout] at hrad
        simp at hrad
      | true =>
        simp only [execute_with_folder] at hout
        split at hout
        · simp at hout; rw [← hout] at hrad; simp at hrad
        · split at hout
          · simp at hout; rw [← hout] at hrad; simp at hrad
          · split at hout
            · simp at hout
            · split at hout
              · simp at hout; rw [← hout] at hrad; simp at hrad
              · simp at hout; rw [← hout] at hrad; simp at hrad

/-- Witness for C10: a concrete radical measure short-circuits the output. -/
theorem radical_measure_witness :
    ((some "drift detected", true) : Option String × Bool).1 = some "drift detected" ∧
    execute_with_folder inputPlain (some "drift detected", true) checksWithUnexec
        false true
      = some { executed_steps := 0, warnings := [], unexecutable := [],
               radical_measure := some "drift detected" } :=
  ⟨rfl,
   (radical_measure_short_circuits_output inputPlain (some "drift detected", true)
       checksWithUnexec false true).1 "drift detected" rfl⟩

end PrismaSpec
